import Mathlib

/-!
Shallow embedding of the Sassafras consensus verification core
(`client/consensus/sassafras/src/lib.rs`) and proofs about it.

Machine integers (`u64`) are modelled as `Nat`; the additions the code
performs on them are taken modulo `2 ^ 64`, mirroring wrapping `u64`
arithmetic, and theorems about them carry explicit no-overflow
hypotheses matching the spec's stated invariants.
-/

namespace Sassafras

/-- Byte strings (each entry a byte value). -/
abbrev Bytes := List Nat

/-- 2^64, the modulus of `u64` arithmetic. -/
def U64LIMIT : Nat := 2 ^ 64

/-- Wrapping `u64` addition. -/
def wadd (a b : Nat) : Nat := (a + b) % U64LIMIT

/-- Modelled from the spec: `SASSAFRAS_ENGINE_ID` is declared in the
`sp_consensus_sassafras` crate, which is not part of this repository; the
spec describes it as a fixed 4-byte engine id used both as the digest
engine tag and as the Merlin transcript label. We fix its 4 bytes. -/
def SASSAFRAS_ENGINE_ID : Bytes := [83, 65, 83, 83]

/-- Modelled from the spec: `AUXILIARY_KEY` is declared in the (absent)
`aux_schema` module; the spec describes it as a fixed byte string under
which the auxiliary record is stored. -/
def AUXILIARY_KEY : Bytes := [115, 97, 115, 115, 95, 97, 117, 120]

/-- Authority public key bytes (schnorrkel-compatible, opaque here). -/
abbrev AuthorityId := Bytes

/-- Authority weight (`u64`, treated as opaque by the core). -/
abbrev SassafrasAuthorityWeight := Nat

/-- Epoch randomness (32-byte opaque value, opaque here). -/
abbrev Randomness := Bytes

/-- A ticket VRF proof (opaque). -/
abbrev VRFProof := Nat

/-- A VRF output (opaque). -/
abbrev VRFOutput := Nat

/-- A seal signature (opaque). -/
abbrev Signature := Nat

/-- `PreDigest` from `sp_consensus_sassafras::digest` as used by
`lib.rs`: authority index, slot, ticket VRF index/output, post VRF
output/proof. -/
structure PreDigest where
  authority_index : Nat
  slot : Nat
  ticket_vrf_index : Nat
  ticket_vrf_output : VRFOutput
  post_vrf_output : VRFOutput
  post_vrf_proof : VRFProof
deriving DecidableEq

/-- `PostBlockDescriptor`: an ordered sequence of ticket VRF proofs. -/
structure PostBlockDescriptor where
  commitments : List VRFProof
deriving DecidableEq

/-- `NextEpochDescriptor`: authorities and randomness for the next-next
validator set. -/
structure NextEpochDescriptor where
  authorities : List (AuthorityId × SassafrasAuthorityWeight)
  randomness : Randomness
deriving DecidableEq

/-- A digest log item, the tagged variants the core recognizes:
pre-runtime digest, post-block descriptor, next-epoch descriptor, a seal
`(engine_id, signature)`, or anything else. -/
inductive DigestItem where
  | pre (d : PreDigest)
  | postDesc (d : PostBlockDescriptor)
  | nextDesc (d : NextEpochDescriptor)
  | seal (engine : Bytes) (sig : Signature)
  | other
deriving DecidableEq

/-- `CompatibleDigestItem::as_sassafras_pre_digest`. -/
def as_sassafras_pre_digest : DigestItem → Option PreDigest
  | .pre d => some d
  | _ => none

/-- `CompatibleDigestItem::as_sassafras_post_block_descriptor`. -/
def as_sassafras_post_block_descriptor : DigestItem → Option PostBlockDescriptor
  | .postDesc d => some d
  | _ => none

/-- `CompatibleDigestItem::as_sassafras_next_epoch_descriptor`. -/
def as_sassafras_next_epoch_descriptor : DigestItem → Option NextEpochDescriptor
  | .nextDesc d => some d
  | _ => none

/-- `CompatibleDigestItem::as_sassafras_seal`: a seal of the Sassafras
engine id yields its signature. -/
def as_sassafras_seal : DigestItem → Option Signature
  | .seal engine sig => if engine = SASSAFRAS_ENGINE_ID then some sig else none
  | _ => none

/-- A block header, reduced to the capability set the core uses: its
digest log (`digest().logs()`, with `digest_mut().pop()` modelled as
taking the last element). -/
structure SassHeader where
  logs : List DigestItem
deriving DecidableEq

/-- The error enum of `lib.rs` (payloads kept only where a claim needs
them). -/
inductive VerifyError where
  | Extraction
  | TooFarInFuture
  | ParentUnavailable
  | FetchParentHeader
  | MultiplePreRuntimeDigest
  | NoPreRuntimeDigest
  | MultipleNextEpochDescriptor
  | MultiplePostBlockDescriptor
  | InvalidTicketVRFIndex
  | InvalidAuthorityId
  | InvalidSeal
  | HeaderUnsealed (hash : Nat)
  | TicketVRFVerificationFailed
  | PostVRFVerificationFailed
  | SlotInPast
  | SlotInFuture
  | Runtime
  | Client
deriving DecidableEq

/-- Loop of `find_pre_digest`: scan the digest log, keeping the first
Sassafras pre-runtime digest, failing if a second one occurs. -/
def find_pre_digest_go : List DigestItem → Option PreDigest →
    Except VerifyError (Option PreDigest)
  | [], acc => .ok acc
  | log :: rest, acc =>
    match as_sassafras_pre_digest log, acc.isSome with
    | some _, true => .error .MultiplePreRuntimeDigest
    | none, _ => find_pre_digest_go rest acc
    | s, false => find_pre_digest_go rest s

/-- `find_pre_digest` from `lib.rs`. -/
def find_pre_digest (header : SassHeader) : Except VerifyError PreDigest :=
  match find_pre_digest_go header.logs none with
  | .error e => .error e
  | .ok none => .error .NoPreRuntimeDigest
  | .ok (some d) => .ok d

/-- Loop of `find_post_block_descriptor`. -/
def find_post_block_descriptor_go : List DigestItem → Option PostBlockDescriptor →
    Except VerifyError (Option PostBlockDescriptor)
  | [], acc => .ok acc
  | log :: rest, acc =>
    match as_sassafras_post_block_descriptor log, acc.isSome with
    | some _, true => .error .MultiplePostBlockDescriptor
    | none, _ => find_post_block_descriptor_go rest acc
    | s, false => find_post_block_descriptor_go rest s

/-- `find_post_block_descriptor` from `lib.rs`. -/
def find_post_block_descriptor (header : SassHeader) :
    Except VerifyError (Option PostBlockDescriptor) :=
  find_post_block_descriptor_go header.logs none

/-- Loop of `find_next_epoch_descriptor`. -/
def find_next_epoch_descriptor_go : List DigestItem → Option NextEpochDescriptor →
    Except VerifyError (Option NextEpochDescriptor)
  | [], acc => .ok acc
  | log :: rest, acc =>
    match as_sassafras_next_epoch_descriptor log, acc.isSome with
    | some _, true => .error .MultipleNextEpochDescriptor
    | none, _ => find_next_epoch_descriptor_go rest acc
    | s, false => find_next_epoch_descriptor_go rest s

/-- `find_next_epoch_descriptor` from `lib.rs`. -/
def find_next_epoch_descriptor (header : SassHeader) :
    Except VerifyError (Option NextEpochDescriptor) :=
  find_next_epoch_descriptor_go header.logs none

/-- `u64::to_le_bytes`: eight little-endian bytes. -/
def u64_to_le_bytes (n : Nat) : Bytes :=
  [n % 256, n / 2 ^ 8 % 256, n / 2 ^ 16 % 256, n / 2 ^ 24 % 256,
   n / 2 ^ 32 % 256, n / 2 ^ 40 % 256, n / 2 ^ 48 % 256, n / 2 ^ 56 % 256]

/-- A Merlin transcript, shallowly: its initial label and the ordered
list of `(label, message)` pairs appended by `commit_bytes`. -/
structure Transcript where
  label : Bytes
  ops : List (Bytes × Bytes)
deriving DecidableEq

/-- `Transcript::new`. -/
def Transcript.new (label : Bytes) : Transcript := ⟨label, []⟩

/-- `Transcript::commit_bytes` appends one `(label, message)` pair. -/
def Transcript.commit_bytes (t : Transcript) (l msg : Bytes) : Transcript :=
  ⟨t.label, t.ops ++ [(l, msg)]⟩

/-- The bytes of the ASCII literal "type". -/
def typeLabel : Bytes := [116, 121, 112, 101]

/-- The bytes of the ASCII literal "ticket". -/
def ticketTag : Bytes := [116, 105, 99, 107, 101, 116]

/-- The bytes of the ASCII literal "post". -/
def postTag : Bytes := [112, 111, 115, 116]

/-- The bytes of the ASCII literal "slot number". -/
def slotNumberLabel : Bytes := [115, 108, 111, 116, 32, 110, 117, 109, 98, 101, 114]

/-- The bytes of the ASCII literal "current epoch". -/
def currentEpochLabel : Bytes := [99, 117, 114, 114, 101, 110, 116, 32, 101, 112, 111, 99, 104]

/-- The bytes of the ASCII literal "chain randomness". -/
def chainRandomnessLabel : Bytes :=
  [99, 104, 97, 105, 110, 32, 114, 97, 110, 100, 111, 109, 110, 101, 115, 115]

/-- `make_ticket_transcript` from `lib.rs`. -/
def make_ticket_transcript (randomness : Bytes) (slot_number epoch : Nat) : Transcript :=
  let t := Transcript.new SASSAFRAS_ENGINE_ID
  let t := t.commit_bytes typeLabel ticketTag
  let t := t.commit_bytes slotNumberLabel (u64_to_le_bytes slot_number)
  let t := t.commit_bytes currentEpochLabel (u64_to_le_bytes epoch)
  let t := t.commit_bytes chainRandomnessLabel randomness
  t

/-- `make_post_transcript` from `lib.rs`. -/
def make_post_transcript (randomness : Bytes) (slot_number epoch : Nat) : Transcript :=
  let t := Transcript.new SASSAFRAS_ENGINE_ID
  let t := t.commit_bytes typeLabel postTag
  let t := t.commit_bytes slotNumberLabel (u64_to_le_bytes slot_number)
  let t := t.commit_bytes currentEpochLabel (u64_to_le_bytes epoch)
  let t := t.commit_bytes chainRandomnessLabel randomness
  t

/-- `ValidatorSet` from `lib.rs`: collected VRF proofs, weighted
authorities, and the epoch randomness. -/
structure ValidatorSet where
  proofs : List VRFProof
  authorities : List (AuthorityId × SassafrasAuthorityWeight)
  randomness : Randomness
deriving DecidableEq

/-- `Epoch` from `lib.rs`: start slot, duration, index, and the
publishing and validating validator sets. -/
structure Epoch where
  start_slot : Nat
  duration : Nat
  epoch_index : Nat
  publishing : ValidatorSet
  validating : ValidatorSet
deriving DecidableEq

/-- `Epoch::increment` from `lib.rs` (`u64` additions wrap). -/
def Epoch.increment (e : Epoch) (descriptor : NextEpochDescriptor) : Epoch :=
  { epoch_index := wadd e.epoch_index 1
    start_slot := wadd e.start_slot e.duration
    duration := e.duration
    validating := e.publishing
    publishing :=
      { proofs := []
        authorities := descriptor.authorities
        randomness := descriptor.randomness } }

/-- `Epoch::start_slot` accessor from `lib.rs`. -/
def Epoch.start_slot_fn (e : Epoch) : Nat := e.start_slot

/-- `Epoch::end_slot` from `lib.rs`. -/
def Epoch.end_slot (e : Epoch) : Nat := wadd e.start_slot e.duration

/-- `PoolAuxiliary` as constructed at the rotation site of
`SassafrasVerifier::verify`: collected proofs, authorities, randomness,
and a per-set epoch index. (Its declaration lives in the absent
`aux_schema` module; the field set is exactly the one `lib.rs` uses.) -/
structure PoolAuxiliary where
  proofs : List VRFProof
  authorities : List (AuthorityId × SassafrasAuthorityWeight)
  randomness : Randomness
  epoch : Nat
deriving DecidableEq

/-- Modelled from the spec: the per-block `AuxiliaryRecord`
(`{ epoch_state, last_slot }`) is declared in the absent `aux_schema`
module; `lib.rs` accesses its `validating`, `publishing` and `slot`
fields, which fixes this shape. -/
structure Auxiliary where
  validating : PoolAuxiliary
  publishing : PoolAuxiliary
  slot : Nat
deriving DecidableEq

/-- The environment `SassafrasVerifier::verify` draws on besides the
header: the slot obtained from the `TimeSource`, the parent header
metadata lookup (`none` models a `header_metadata` failure), the
auxiliary record derived from the parent, the header hash function, and
the schnorrkel signature / VRF verifications (modelled as boolean
oracles, since the cryptography is external to this crate). -/
structure VerifyEnv where
  slot_now : Nat
  parent_meta : Option Unit
  auxiliary : Auxiliary
  hashFn : List DigestItem → Nat
  sealVerify : Signature → Nat → AuthorityId → Bool
  vrfVerify : AuthorityId → Transcript → VRFOutput → VRFProof → Bool

/-- The fields of `BlockImportParams` that `verify` fills in (origin,
body and justification pass through unchanged and are omitted). -/
structure BlockImportParamsOut where
  header : SassHeader
  post_digests : List DigestItem
  finalized : Bool
  auxiliary : List (Bytes × Option Auxiliary)
  allow_missing_state : Bool
  import_existing : Bool
deriving DecidableEq

/-- Rust's `Option::ok_or`, as used with the `?` operator in `lib.rs`. -/
def ok_or {α : Type} (e : VerifyError) : Option α → Except VerifyError α
  | none => .error e
  | some a => .ok a

/-- `SassafrasVerifier::verify` from `lib.rs`, in source order: extract
slot from inherent data, fetch parent header metadata, find the
pre-digest, reject future slots, look up the author, pop and check the
seal against the pre-seal hash, look up and verify the ticket VRF,
verify the post VRF, append any post-block commitments to
`publishing.proofs`, and on a next-epoch descriptor rotate the sets. -/
def sassafras_verify (env : VerifyEnv) (header : SassHeader) :
    Except VerifyError BlockImportParamsOut := do
  let _ ← ok_or VerifyError.FetchParentHeader env.parent_meta
  let pre_digest ← find_pre_digest header
  if pre_digest.slot > env.slot_now then
    throw .SlotInFuture
  let aw ← ok_or .InvalidAuthorityId
    (env.auxiliary.validating.authorities[pre_digest.authority_index]?)
  let author := aw.1
  -- `digest_mut().pop()`: take the last digest item, removing it.
  let sealItem ← ok_or (.HeaderUnsealed (env.hashFn header.logs)) header.logs.getLast?
  let logs' := header.logs.dropLast
  let signature ← ok_or .InvalidSeal (as_sassafras_seal sealItem)
  let pre_hash := env.hashFn logs'
  if !env.sealVerify signature pre_hash author then
    throw .InvalidSeal
  let ticket_vrf_proof ← ok_or .InvalidTicketVRFIndex
    (env.auxiliary.validating.proofs[pre_digest.ticket_vrf_index]?)
  let ticket_transcript := make_ticket_transcript
    env.auxiliary.validating.randomness pre_digest.slot env.auxiliary.validating.epoch
  if !env.vrfVerify author ticket_transcript
      pre_digest.ticket_vrf_output ticket_vrf_proof then
    throw .TicketVRFVerificationFailed
  let post_transcript := make_post_transcript
    env.auxiliary.validating.randomness pre_digest.slot env.auxiliary.validating.epoch
  if !env.vrfVerify author post_transcript
      pre_digest.post_vrf_output pre_digest.post_vrf_proof then
    throw .PostVRFVerificationFailed
  let postDesc ← find_post_block_descriptor ⟨logs'⟩
  let aux1 : Auxiliary :=
    match postDesc with
    | none => env.auxiliary
    | some d =>
      { env.auxiliary with
        publishing :=
          { env.auxiliary.publishing with
            proofs := env.auxiliary.publishing.proofs ++ d.commitments } }
  let nextDesc ← find_next_epoch_descriptor ⟨logs'⟩
  let aux2 : Auxiliary :=
    match nextDesc with
    | none => aux1
    | some d =>
      -- swap publishing into validating, then overwrite publishing
      -- with a fresh set whose epoch is one past the swapped-in one.
      { aux1 with
        validating := aux1.publishing
        publishing :=
          { proofs := []
            authorities := d.authorities
            randomness := d.randomness
            epoch := wadd aux1.publishing.epoch 1 } }
  return { header := ⟨logs'⟩
           post_digests := [sealItem]
           finalized := false
           auxiliary := [(AUXILIARY_KEY, some aux2)]
           allow_missing_state := false
           import_existing := false }

/-- The fields of the incoming `BlockImportParams` that
`SassafrasBlockImport::import_block` touches: the header (for the
pre-digest) and the auxiliary write list (which it leaves unchanged). -/
structure BlockParamsIn where
  header : SassHeader
  auxiliary : List (Bytes × Option Auxiliary)
deriving DecidableEq

/-- `SassafrasBlockImport::import_block` from `lib.rs`: load the
parent's auxiliary record (`none` models a storage failure), read the
pre-digest, reject a slot not strictly above the recorded one, update
the slot on the local copy of the record, and delegate the block to the
inner importer. The returned value is the block as passed to the inner
importer. (The mutated local record is dropped by the source: it is
neither attached to the block nor written.) -/
def sassafras_import_block (loaded : Option Auxiliary) (block : BlockParamsIn) :
    Except VerifyError BlockParamsIn :=
  match loaded with
  | none => .error .Client
  | some auxiliary =>
    match find_pre_digest block.header with
    | .error e => .error e
    | .ok pre_digest =>
      if pre_digest.slot ≤ auxiliary.slot then .error .SlotInPast
      else
        let _auxiliary' := { auxiliary with slot := pre_digest.slot }
        .ok block

/-- The "outside-in" permutation the spec prescribes for rotated proofs:
the result lists the input's indices in the order `0, N-1, 1, N-2, 2, …`
(position `i` of the result holds input index `i / 2` when `i` is even
and `N - 1 - i / 2` when `i` is odd). Stated from the spec's words, for
comparison with what the code produces. -/
def outsideIn (l : List VRFProof) : List VRFProof :=
  (List.range l.length).map fun i =>
    l.getD (if i % 2 = 0 then i / 2 else l.length - 1 - i / 2) 0

/-! ### Reduction lemmas for the `Except` monad and `ok_or` -/

theorem except_bind_ok {α β : Type} (a : α) (f : α → Except VerifyError β) :
    (Except.ok a : Except VerifyError α) >>= f = f a := rfl

theorem except_bind_error {α β : Type} (e : VerifyError) (f : α → Except VerifyError β) :
    (Except.error e : Except VerifyError α) >>= f = .error e := rfl

theorem except_throw {α : Type} (e : VerifyError) :
    (throw e : Except VerifyError α) = .error e := rfl

theorem except_pure {α : Type} (a : α) :
    (pure a : Except VerifyError α) = .ok a := rfl

theorem ok_or_some {α : Type} (e : VerifyError) (a : α) : ok_or e (some a) = .ok a := rfl

theorem ok_or_none {α : Type} (e : VerifyError) : ok_or e (none : Option α) = .error e := rfl

/-! ### Characterization of the digest scanners -/

theorem find_pre_digest_go_some (logs : List DigestItem) (a : PreDigest) :
    find_pre_digest_go logs (some a) =
      if logs.filterMap as_sassafras_pre_digest = [] then .ok (some a)
      else .error .MultiplePreRuntimeDigest := by
  induction logs with
  | nil => simp [find_pre_digest_go]
  | cons l rest ih =>
    cases hl : as_sassafras_pre_digest l <;>
      simp [find_pre_digest_go, hl, ih, List.filterMap_cons]

theorem find_pre_digest_go_none (logs : List DigestItem) :
    find_pre_digest_go logs none =
      match logs.filterMap as_sassafras_pre_digest with
      | [] => .ok none
      | [d] => .ok (some d)
      | _ :: _ :: _ => .error .MultiplePreRuntimeDigest := by
  induction logs with
  | nil => simp [find_pre_digest_go]
  | cons l rest ih =>
    cases hl : as_sassafras_pre_digest l
    · simpa [find_pre_digest_go, hl, List.filterMap_cons] using ih
    · simp only [find_pre_digest_go, hl, Option.isSome, List.filterMap_cons,
        find_pre_digest_go_some]
      cases hrest : rest.filterMap as_sassafras_pre_digest <;> simp

theorem find_post_block_descriptor_go_some (logs : List DigestItem) (a : PostBlockDescriptor) :
    find_post_block_descriptor_go logs (some a) =
      if logs.filterMap as_sassafras_post_block_descriptor = [] then .ok (some a)
      else .error .MultiplePostBlockDescriptor := by
  induction logs with
  | nil => simp [find_post_block_descriptor_go]
  | cons l rest ih =>
    cases hl : as_sassafras_post_block_descriptor l <;>
      simp [find_post_block_descriptor_go, hl, ih, List.filterMap_cons]

theorem find_post_block_descriptor_go_none (logs : List DigestItem) :
    find_post_block_descriptor_go logs none =
      match logs.filterMap as_sassafras_post_block_descriptor with
      | [] => .ok none
      | [d] => .ok (some d)
      | _ :: _ :: _ => .error .MultiplePostBlockDescriptor := by
  induction logs with
  | nil => simp [find_post_block_descriptor_go]
  | cons l rest ih =>
    cases hl : as_sassafras_post_block_descriptor l
    · simpa [find_post_block_descriptor_go, hl, List.filterMap_cons] using ih
    · simp only [find_post_block_descriptor_go, hl, Option.isSome, List.filterMap_cons,
        find_post_block_descriptor_go_some]
      cases hrest : rest.filterMap as_sassafras_post_block_descriptor <;> simp

theorem find_next_epoch_descriptor_go_some (logs : List DigestItem) (a : NextEpochDescriptor) :
    find_next_epoch_descriptor_go logs (some a) =
      if logs.filterMap as_sassafras_next_epoch_descriptor = [] then .ok (some a)
      else .error .MultipleNextEpochDescriptor := by
  induction logs with
  | nil => simp [find_next_epoch_descriptor_go]
  | cons l rest ih =>
    cases hl : as_sassafras_next_epoch_descriptor l <;>
      simp [find_next_epoch_descriptor_go, hl, ih, List.filterMap_cons]

theorem find_next_epoch_descriptor_go_none (logs : List DigestItem) :
    find_next_epoch_descriptor_go logs none =
      match logs.filterMap as_sassafras_next_epoch_descriptor with
      | [] => .ok none
      | [d] => .ok (some d)
      | _ :: _ :: _ => .error .MultipleNextEpochDescriptor := by
  induction logs with
  | nil => simp [find_next_epoch_descriptor_go]
  | cons l rest ih =>
    cases hl : as_sassafras_next_epoch_descriptor l
    · simpa [find_next_epoch_descriptor_go, hl, List.filterMap_cons] using ih
    · simp only [find_next_epoch_descriptor_go, hl, Option.isSome, List.filterMap_cons,
        find_next_epoch_descriptor_go_some]
      cases hrest : rest.filterMap as_sassafras_next_epoch_descriptor <;> simp

/-- The only errors `find_pre_digest` produces. -/
theorem find_pre_digest_error_shape (h : SassHeader) (e : VerifyError)
    (he : find_pre_digest h = .error e) :
    e = .MultiplePreRuntimeDigest ∨ e = .NoPreRuntimeDigest := by
  unfold find_pre_digest at he
  rw [find_pre_digest_go_none] at he
  cases hfm : h.logs.filterMap as_sassafras_pre_digest with
  | nil => rw [hfm] at he; simp at he; simp [he]
  | cons d rest =>
    cases rest with
    | nil => rw [hfm] at he; simp at he
    | cons d2 rest2 => rw [hfm] at he; simp at he; simp [he]

/-- The only error `find_post_block_descriptor` produces. -/
theorem find_post_block_descriptor_error_shape (h : SassHeader) (e : VerifyError)
    (he : find_post_block_descriptor h = .error e) :
    e = .MultiplePostBlockDescriptor := by
  unfold find_post_block_descriptor at he
  rw [find_post_block_descriptor_go_none] at he
  cases hfm : h.logs.filterMap as_sassafras_post_block_descriptor with
  | nil => rw [hfm] at he; simp at he
  | cons d rest =>
    cases rest with
    | nil => rw [hfm] at he; simp at he
    | cons d2 rest2 => rw [hfm] at he; simp at he; simp [he]

/-- The only error `find_next_epoch_descriptor` produces. -/
theorem find_next_epoch_descriptor_error_shape (h : SassHeader) (e : VerifyError)
    (he : find_next_epoch_descriptor h = .error e) :
    e = .MultipleNextEpochDescriptor := by
  unfold find_next_epoch_descriptor at he
  rw [find_next_epoch_descriptor_go_none] at he
  cases hfm : h.logs.filterMap as_sassafras_next_epoch_descriptor with
  | nil => rw [hfm] at he; simp at he
  | cons d rest =>
    cases rest with
    | nil => rw [hfm] at he; simp at he
    | cons d2 rest2 => rw [hfm] at he; simp at he; simp [he]

/-- A successful `find_pre_digest` implies a non-empty digest log. -/
theorem find_pre_digest_ok_ne_nil (h : SassHeader) (pre : PreDigest)
    (hp : find_pre_digest h = .ok pre) : h.logs ≠ [] := by
  intro hnil
  rw [show h = ⟨h.logs⟩ from rfl, hnil] at hp
  simp [find_pre_digest, find_pre_digest_go] at hp

/-- The value denoted by a little-endian byte string (least significant
byte first). -/
def le_value : Bytes → Nat
  | [] => 0
  | b :: rest => b + 256 * le_value rest

/-! ### Claim theorems -/

/-- C2: for every epoch `e` and descriptor `d`, `Epoch.increment e d`
has `epoch_index = e.epoch_index + 1`, `start_slot = e.start_slot +
e.duration`, `validating = e.publishing`, and `publishing` the fresh set
`{proofs := [], authorities := d.authorities, randomness :=
d.randomness}`. The two arithmetic hypotheses are the spec's stated
no-overflow invariants on `u64` fields. -/
theorem Epoch_increment_spec (e : Epoch) (d : NextEpochDescriptor)
    (h1 : e.epoch_index + 1 < U64LIMIT) (h2 : e.start_slot + e.duration < U64LIMIT) :
    (e.increment d).epoch_index = e.epoch_index + 1 ∧
    (e.increment d).start_slot = e.start_slot + e.duration ∧
    (e.increment d).validating = e.publishing ∧
    (e.increment d).publishing =
      { proofs := [], authorities := d.authorities, randomness := d.randomness } := by
  refine ⟨?_, ?_, rfl, rfl⟩
  · simpa [Epoch.increment, wadd] using Nat.mod_eq_of_lt h1
  · simpa [Epoch.increment, wadd] using Nat.mod_eq_of_lt h2

/-- Witness for C2 at a concrete epoch and descriptor. -/
theorem Epoch_increment_spec_witness :
    ((⟨10, 100, 0, ⟨[7], [([1], 1)], [3]⟩, ⟨[], [([2], 2)], [4]⟩⟩ : Epoch).epoch_index + 1
        < U64LIMIT) ∧
    ((⟨10, 100, 0, ⟨[7], [([1], 1)], [3]⟩, ⟨[], [([2], 2)], [4]⟩⟩ : Epoch).start_slot +
        (⟨10, 100, 0, ⟨[7], [([1], 1)], [3]⟩, ⟨[], [([2], 2)], [4]⟩⟩ : Epoch).duration
        < U64LIMIT) ∧
    (((⟨10, 100, 0, ⟨[7], [([1], 1)], [3]⟩, ⟨[], [([2], 2)], [4]⟩⟩ : Epoch).increment
        ⟨[([6], 1)], [5]⟩).epoch_index =
      (⟨10, 100, 0, ⟨[7], [([1], 1)], [3]⟩, ⟨[], [([2], 2)], [4]⟩⟩ : Epoch).epoch_index + 1 ∧
    ((⟨10, 100, 0, ⟨[7], [([1], 1)], [3]⟩, ⟨[], [([2], 2)], [4]⟩⟩ : Epoch).increment
        ⟨[([6], 1)], [5]⟩).start_slot =
      (⟨10, 100, 0, ⟨[7], [([1], 1)], [3]⟩, ⟨[], [([2], 2)], [4]⟩⟩ : Epoch).start_slot +
        (⟨10, 100, 0, ⟨[7], [([1], 1)], [3]⟩, ⟨[], [([2], 2)], [4]⟩⟩ : Epoch).duration ∧
    ((⟨10, 100, 0, ⟨[7], [([1], 1)], [3]⟩, ⟨[], [([2], 2)], [4]⟩⟩ : Epoch).increment
        ⟨[([6], 1)], [5]⟩).validating =
      (⟨10, 100, 0, ⟨[7], [([1], 1)], [3]⟩, ⟨[], [([2], 2)], [4]⟩⟩ : Epoch).publishing ∧
    ((⟨10, 100, 0, ⟨[7], [([1], 1)], [3]⟩, ⟨[], [([2], 2)], [4]⟩⟩ : Epoch).increment
        ⟨[([6], 1)], [5]⟩).publishing =
      { proofs := [], authorities := [([6], 1)], randomness := [5] }) :=
  ⟨by decide, by decide,
    Epoch_increment_spec ⟨10, 100, 0, ⟨[7], [([1], 1)], [3]⟩, ⟨[], [([2], 2)], [4]⟩⟩
      ⟨[([6], 1)], [5]⟩ (by decide) (by decide)⟩

/-- C9: `make_ticket_transcript` and `make_post_transcript` are (pure,
hence deterministic) functions producing exactly the Merlin transcript
labelled `SASSAFRAS_ENGINE_ID` with the four append pairs in order —
type tag, slot as 8 little-endian bytes, epoch index as 8 little-endian
bytes, and the randomness bytes; the last two conjuncts pin down that
`u64_to_le_bytes` is the 8-byte little-endian encoding. -/
theorem make_transcripts_spec (r : Bytes) (s e : Nat) :
    make_ticket_transcript r s e =
      { label := SASSAFRAS_ENGINE_ID
        ops := [(typeLabel, ticketTag), (slotNumberLabel, u64_to_le_bytes s),
                (currentEpochLabel, u64_to_le_bytes e), (chainRandomnessLabel, r)] } ∧
    make_post_transcript r s e =
      { label := SASSAFRAS_ENGINE_ID
        ops := [(typeLabel, postTag), (slotNumberLabel, u64_to_le_bytes s),
                (currentEpochLabel, u64_to_le_bytes e), (chainRandomnessLabel, r)] } ∧
    (u64_to_le_bytes s).length = 8 ∧
    le_value (u64_to_le_bytes s) = s % U64LIMIT := by
  refine ⟨rfl, rfl, rfl, ?_⟩
  simp [u64_to_le_bytes, le_value, U64LIMIT]
  omega

/-- C6: each digest scanner accepts the single matching item when there
is exactly one, fails with its `Multiple*` error when a second occurs,
and on absence `find_pre_digest` fails with `NoPreRuntimeDigest` while
the descriptor scanners succeed with an empty result. (The head of the
`filterMap` is the first matching item in scan order.) -/
theorem digest_scanners_spec (h : SassHeader) :
    (find_pre_digest h =
      match h.logs.filterMap as_sassafras_pre_digest with
      | [] => .error .NoPreRuntimeDigest
      | [d] => .ok d
      | _ :: _ :: _ => .error .MultiplePreRuntimeDigest) ∧
    (find_post_block_descriptor h =
      match h.logs.filterMap as_sassafras_post_block_descriptor with
      | [] => .ok none
      | [d] => .ok (some d)
      | _ :: _ :: _ => .error .MultiplePostBlockDescriptor) ∧
    (find_next_epoch_descriptor h =
      match h.logs.filterMap as_sassafras_next_epoch_descriptor with
      | [] => .ok none
      | [d] => .ok (some d)
      | _ :: _ :: _ => .error .MultipleNextEpochDescriptor) := by
  refine ⟨?_, ?_, ?_⟩
  · unfold find_pre_digest
    rw [find_pre_digest_go_none]
    cases hfm : h.logs.filterMap as_sassafras_pre_digest with
    | nil => rfl
    | cons d rest => cases rest <;> rfl
  · unfold find_post_block_descriptor
    rw [find_post_block_descriptor_go_none]
  · unfold find_next_epoch_descriptor
    rw [find_next_epoch_descriptor_go_none]

/-! ### Concrete fixtures for witnesses and counterexamples -/

/-- A concrete validating set: one proof, one authority, epoch 5. -/
def valW : PoolAuxiliary := ⟨[10], [([1], 1)], [3], 5⟩

/-- A concrete publishing set: three proofs, one authority, epoch 9. -/
def pubW : PoolAuxiliary := ⟨[10, 20, 30], [([4], 2)], [8], 9⟩

/-- A concrete auxiliary record at slot 0. -/
def auxW : Auxiliary := ⟨valW, pubW, 0⟩

/-- A concrete verification environment: slot 1, parent metadata
available, trivial hash, always-accepting signature and VRF oracles. -/
def envW : VerifyEnv :=
  ⟨1, some (), auxW, fun _ => 0, fun _ _ _ => true, fun _ _ _ _ => true⟩

/-- A concrete pre-digest: authority 0, slot 1, ticket index 0. -/
def pdW : PreDigest := ⟨0, 1, 0, 11, 12, 13⟩

/-- A concrete header carrying a pre-digest, a next-epoch descriptor and
a Sassafras seal. -/
def hRot : SassHeader :=
  ⟨[.pre pdW, .nextDesc ⟨[([6], 1)], [5]⟩, .seal SASSAFRAS_ENGINE_ID 99]⟩

/-- C10: the `HeaderUnsealed` branch of `verify` is dead code: whenever
the seal-extraction point is reached, `find_pre_digest` has already
succeeded, so the digest log is non-empty and popping its last item
yields an item; `verify` never returns `HeaderUnsealed`. -/
theorem verify_never_header_unsealed (env : VerifyEnv) (h : SassHeader) (x : Nat) :
    sassafras_verify env h ≠ .error (.HeaderUnsealed x) := by
  intro hEq
  unfold sassafras_verify at hEq
  cases hpm : env.parent_meta with
  | none => simp [hpm, ok_or_none, except_bind_error] at hEq
  | some u =>
  simp only [hpm, ok_or_some, except_bind_ok] at hEq
  cases hfp : find_pre_digest h with
  | error e =>
    simp only [hfp, except_bind_error] at hEq
    rcases find_pre_digest_error_shape h e hfp with rfl | rfl <;> simp at hEq
  | ok pre =>
  simp only [hfp, except_bind_ok] at hEq
  by_cases hslot : pre.slot > env.slot_now
  · simp [hslot, except_throw, except_bind_error] at hEq
  · simp only [if_neg hslot, except_pure, except_bind_ok] at hEq
    cases hga : env.auxiliary.validating.authorities[pre.authority_index]? with
    | none => simp [hga, ok_or_none, except_bind_error] at hEq
    | some aw =>
    simp only [hga, ok_or_some, except_bind_ok] at hEq
    cases hlast : h.logs.getLast? with
    | none =>
      exact find_pre_digest_ok_ne_nil h pre hfp (List.getLast?_eq_none_iff.mp hlast)
    | some sealItem =>
    simp only [hlast, ok_or_some, except_bind_ok] at hEq
    cases hseal : as_sassafras_seal sealItem with
    | none => simp [hseal, ok_or_none, except_bind_error] at hEq
    | some sig =>
    simp only [hseal, ok_or_some, except_bind_ok] at hEq
    cases hsv : env.sealVerify sig (env.hashFn h.logs.dropLast) aw.1 with
    | false => simp [hsv, except_throw, except_bind_error] at hEq
    | true =>
    simp only [hsv, Bool.not_true, Bool.false_eq_true, if_false,
      except_pure, except_bind_ok] at hEq
    cases hgt : env.auxiliary.validating.proofs[pre.ticket_vrf_index]? with
    | none => simp [hgt, ok_or_none, except_bind_error] at hEq
    | some tp =>
    simp only [hgt, ok_or_some, except_bind_ok] at hEq
    cases htv : env.vrfVerify aw.1
        (make_ticket_transcript env.auxiliary.validating.randomness pre.slot
          env.auxiliary.validating.epoch) pre.ticket_vrf_output tp with
    | false => simp [htv, except_throw, except_bind_error] at hEq
    | true =>
    simp only [htv, Bool.not_true, Bool.false_eq_true, if_false,
      except_pure, except_bind_ok] at hEq
    cases hpv : env.vrfVerify aw.1
        (make_post_transcript env.auxiliary.validating.randomness pre.slot
          env.auxiliary.validating.epoch) pre.post_vrf_output pre.post_vrf_proof with
    | false => simp [hpv, except_throw, except_bind_error] at hEq
    | true =>
    simp only [hpv, Bool.not_true, Bool.false_eq_true, if_false,
      except_pure, except_bind_ok] at hEq
    cases hpd : find_post_block_descriptor ⟨h.logs.dropLast⟩ with
    | error e =>
      simp only [hpd, except_bind_error] at hEq
      have := find_post_block_descriptor_error_shape _ e hpd
      subst this
      simp at hEq
    | ok pdesc =>
    simp only [hpd, except_bind_ok] at hEq
    cases hnd : find_next_epoch_descriptor ⟨h.logs.dropLast⟩ with
    | error e =>
      simp only [hnd, except_bind_error] at hEq
      have := find_next_epoch_descriptor_error_shape _ e hnd
      subst this
      simp at hEq
    | ok ndesc =>
      simp only [hnd, except_bind_ok] at hEq
      simp at hEq

/-- A concrete header whose pre-digest claims slot 5 (future w.r.t.
`envW.slot_now = 1`). -/
def hFut : SassHeader := ⟨[.pre ⟨0, 5, 0, 11, 12, 13⟩, .seal SASSAFRAS_ENGINE_ID 99]⟩

/-- C8: once the pre-digest is found, `verify` fails with `SlotInFuture`
exactly when the pre-digest slot strictly exceeds `slot_now`; in
particular a slot equal to `slot_now` is never rejected by this check. -/
theorem verify_slot_in_future_iff (env : VerifyEnv) (h : SassHeader) (pre : PreDigest)
    (hpm : env.parent_meta = some ()) (hfp : find_pre_digest h = .ok pre) :
    (sassafras_verify env h = .error .SlotInFuture ↔ pre.slot > env.slot_now) := by
  constructor
  · intro hEq
    by_contra hslot
    unfold sassafras_verify at hEq
    simp only [hpm, ok_or_some, except_bind_ok, hfp] at hEq
    simp only [if_neg hslot, except_pure, except_bind_ok] at hEq
    cases hga : env.auxiliary.validating.authorities[pre.authority_index]? with
    | none => simp [hga, ok_or_none, except_bind_error] at hEq
    | some aw =>
    simp only [hga, ok_or_some, except_bind_ok] at hEq
    cases hlast : h.logs.getLast? with
    | none => simp [hlast, ok_or_none, except_bind_error] at hEq
    | some sealItem =>
    simp only [hlast, ok_or_some, except_bind_ok] at hEq
    cases hseal : as_sassafras_seal sealItem with
    | none => simp [hseal, ok_or_none, except_bind_error] at hEq
    | some sig =>
    simp only [hseal, ok_or_some, except_bind_ok] at hEq
    cases hsv : env.sealVerify sig (env.hashFn h.logs.dropLast) aw.1 with
    | false => simp [hsv, except_throw, except_bind_error] at hEq
    | true =>
    simp only [hsv, Bool.not_true, Bool.false_eq_true, if_false,
      except_pure, except_bind_ok] at hEq
    cases hgt : env.auxiliary.validating.proofs[pre.ticket_vrf_index]? with
    | none => simp [hgt, ok_or_none, except_bind_error] at hEq
    | some tp =>
    simp only [hgt, ok_or_some, except_bind_ok] at hEq
    cases htv : env.vrfVerify aw.1
        (make_ticket_transcript env.auxiliary.validating.randomness pre.slot
          env.auxiliary.validating.epoch) pre.ticket_vrf_output tp with
    | false => simp [htv, except_throw, except_bind_error] at hEq
    | true =>
    simp only [htv, Bool.not_true, Bool.false_eq_true, if_false,
      except_pure, except_bind_ok] at hEq
    cases hpv : env.vrfVerify aw.1
        (make_post_transcript env.auxiliary.validating.randomness pre.slot
          env.auxiliary.validating.epoch) pre.post_vrf_output pre.post_vrf_proof with
    | false => simp [hpv, except_throw, except_bind_error] at hEq
    | true =>
    simp only [hpv, Bool.not_true, Bool.false_eq_true, if_false,
      except_pure, except_bind_ok] at hEq
    cases hpd : find_post_block_descriptor ⟨h.logs.dropLast⟩ with
    | error e =>
      simp only [hpd, except_bind_error] at hEq
      have := find_post_block_descriptor_error_shape _ e hpd
      subst this
      simp at hEq
    | ok pdesc =>
    simp only [hpd, except_bind_ok] at hEq
    cases hnd : find_next_epoch_descriptor ⟨h.logs.dropLast⟩ with
    | error e =>
      simp only [hnd, except_bind_error] at hEq
      have := find_next_epoch_descriptor_error_shape _ e hnd
      subst this
      simp at hEq
    | ok ndesc =>
      simp only [hnd, except_bind_ok] at hEq
      simp at hEq
  · intro hslot
    unfold sassafras_verify
    simp only [hpm, ok_or_some, except_bind_ok, hfp]
    simp [if_pos hslot, except_throw, except_bind_error]

/-- Witness for C8 at a concrete environment and header (slot 5 against
`slot_now = 1`). -/
theorem verify_slot_in_future_iff_witness :
    envW.parent_meta = some () ∧
    find_pre_digest hFut = .ok ⟨0, 5, 0, 11, 12, 13⟩ ∧
    (sassafras_verify envW hFut = .error .SlotInFuture ↔
      (⟨0, 5, 0, 11, 12, 13⟩ : PreDigest).slot > envW.slot_now) :=
  ⟨rfl, rfl, verify_slot_in_future_iff envW hFut ⟨0, 5, 0, 11, 12, 13⟩ rfl rfl⟩

/-- A concrete header carrying only the pre-digest `pdW` and a seal. -/
def hSealed : SassHeader := ⟨[.pre pdW, .seal SASSAFRAS_ENGINE_ID 99]⟩

/-- A header whose pre-digest names authority index 7 (out of range). -/
def hBadAuth : SassHeader := ⟨[.pre ⟨7, 1, 0, 11, 12, 13⟩, .seal SASSAFRAS_ENGINE_ID 99]⟩

/-- A header whose pre-digest names ticket index 5 (out of range). -/
def hBadTicket : SassHeader := ⟨[.pre ⟨0, 1, 5, 11, 12, 13⟩, .seal SASSAFRAS_ENGINE_ID 99]⟩

/-- An environment whose VRF oracle rejects everything. -/
def envTicketFail : VerifyEnv :=
  ⟨1, some (), auxW, fun _ => 0, fun _ _ _ => true, fun _ _ _ _ => false⟩

/-- An environment whose VRF oracle accepts exactly the "ticket"
transcripts, so the post VRF check is the first to fail. -/
def envPostFail : VerifyEnv :=
  ⟨1, some (), auxW, fun _ => 0, fun _ _ _ => true,
    fun _ t _ _ => decide (t.ops.getD 0 ([], []) = (typeLabel, ticketTag))⟩

/-- C5: the verification stages run in the source's fixed order, each
gating the next: an out-of-range `authority_index` yields
`InvalidAuthorityId` whatever the later stages' data; with the authority,
seal and signature stages passed, an out-of-range `ticket_vrf_index`
yields `InvalidTicketVRFIndex`; with the ticket present, a failing ticket
VRF yields `TicketVRFVerificationFailed` whatever the post VRF data; and
only after the ticket VRF passes can `PostVRFVerificationFailed` arise. -/
theorem verify_stage_order (env : VerifyEnv) (h : SassHeader) (pre : PreDigest)
    (hpm : env.parent_meta = some ()) (hfp : find_pre_digest h = .ok pre)
    (hslot : ¬ pre.slot > env.slot_now) :
    (env.auxiliary.validating.authorities[pre.authority_index]? = none →
      sassafras_verify env h = .error .InvalidAuthorityId) ∧
    (∀ aw item sig,
      env.auxiliary.validating.authorities[pre.authority_index]? = some aw →
      h.logs.getLast? = some item →
      as_sassafras_seal item = some sig →
      env.sealVerify sig (env.hashFn h.logs.dropLast) aw.1 = true →
      env.auxiliary.validating.proofs[pre.ticket_vrf_index]? = none →
      sassafras_verify env h = .error .InvalidTicketVRFIndex) ∧
    (∀ aw item sig tp,
      env.auxiliary.validating.authorities[pre.authority_index]? = some aw →
      h.logs.getLast? = some item →
      as_sassafras_seal item = some sig →
      env.sealVerify sig (env.hashFn h.logs.dropLast) aw.1 = true →
      env.auxiliary.validating.proofs[pre.ticket_vrf_index]? = some tp →
      env.vrfVerify aw.1 (make_ticket_transcript env.auxiliary.validating.randomness
        pre.slot env.auxiliary.validating.epoch) pre.ticket_vrf_output tp = false →
      sassafras_verify env h = .error .TicketVRFVerificationFailed) ∧
    (∀ aw item sig tp,
      env.auxiliary.validating.authorities[pre.authority_index]? = some aw →
      h.logs.getLast? = some item →
      as_sassafras_seal item = some sig →
      env.sealVerify sig (env.hashFn h.logs.dropLast) aw.1 = true →
      env.auxiliary.validating.proofs[pre.ticket_vrf_index]? = some tp →
      env.vrfVerify aw.1 (make_ticket_transcript env.auxiliary.validating.randomness
        pre.slot env.auxiliary.validating.epoch) pre.ticket_vrf_output tp = true →
      env.vrfVerify aw.1 (make_post_transcript env.auxiliary.validating.randomness
        pre.slot env.auxiliary.validating.epoch) pre.post_vrf_output pre.post_vrf_proof = false →
      sassafras_verify env h = .error .PostVRFVerificationFailed) := by
  refine ⟨?_, ?_, ?_, ?_⟩
  · intro hga
    unfold sassafras_verify
    simp [hpm, ok_or_some, except_bind_ok, hfp, if_neg hslot, except_pure,
      hga, ok_or_none, except_bind_error]
  · intro aw item sig hga hlast hseal hsv hgt
    unfold sassafras_verify
    simp [hpm, ok_or_some, except_bind_ok, hfp, if_neg hslot, except_pure,
      hga, hlast, hseal, hsv, hgt, ok_or_none, except_bind_error, except_throw]
  · intro aw item sig tp hga hlast hseal hsv hgt htv
    unfold sassafras_verify
    simp [hpm, ok_or_some, except_bind_ok, hfp, if_neg hslot, except_pure,
      hga, hlast, hseal, hsv, hgt, htv, ok_or_none, except_bind_error, except_throw]
  · intro aw item sig tp hga hlast hseal hsv hgt htv hpv
    unfold sassafras_verify
    simp [hpm, ok_or_some, except_bind_ok, hfp, if_neg hslot, except_pure,
      hga, hlast, hseal, hsv, hgt, htv, hpv, ok_or_none, except_bind_error, except_throw]

/-- Witness for C5: the four stage errors realized at concrete inputs. -/
theorem verify_stage_order_witness :
    envW.parent_meta = some () ∧
    find_pre_digest hBadAuth = .ok ⟨7, 1, 0, 11, 12, 13⟩ ∧
    (¬ (⟨7, 1, 0, 11, 12, 13⟩ : PreDigest).slot > envW.slot_now) ∧
    sassafras_verify envW hBadAuth = .error .InvalidAuthorityId ∧
    sassafras_verify envW hBadTicket = .error .InvalidTicketVRFIndex ∧
    sassafras_verify envTicketFail hSealed = .error .TicketVRFVerificationFailed ∧
    sassafras_verify envPostFail hSealed = .error .PostVRFVerificationFailed :=
  ⟨rfl, rfl, by decide,
    (verify_stage_order envW hBadAuth ⟨7, 1, 0, 11, 12, 13⟩ rfl rfl (by decide)).1 rfl,
    (verify_stage_order envW hBadTicket ⟨0, 1, 5, 11, 12, 13⟩ rfl rfl (by decide)).2.1
      ([1], 1) (.seal SASSAFRAS_ENGINE_ID 99) 99 rfl rfl rfl rfl rfl,
    (verify_stage_order envTicketFail hSealed pdW rfl rfl (by decide)).2.2.1
      ([1], 1) (.seal SASSAFRAS_ENGINE_ID 99) 99 10 rfl rfl rfl rfl rfl rfl,
    (verify_stage_order envPostFail hSealed pdW rfl rfl (by decide)).2.2.2
      ([1], 1) (.seal SASSAFRAS_ENGINE_ID 99) 99 10 rfl rfl rfl rfl rfl rfl rfl⟩

/-- C4: with the pre-digest, slot and authority stages passed, the seal
is the popped last digest item and the header is hashed with it removed:
a missing last item would yield `HeaderUnsealed`; `InvalidSeal` arises
exactly when the popped item is not a seal of the Sassafras engine id or
its signature fails against the pre-seal hash and the author's key; and
any accepted block's output header is the seal-less header with the seal
reattached as the sole post-digest. -/
theorem verify_seal_spec (env : VerifyEnv) (h : SassHeader) (pre : PreDigest)
    (aw : AuthorityId × SassafrasAuthorityWeight)
    (hpm : env.parent_meta = some ()) (hfp : find_pre_digest h = .ok pre)
    (hslot : ¬ pre.slot > env.slot_now)
    (hga : env.auxiliary.validating.authorities[pre.authority_index]? = some aw) :
    (h.logs.getLast? = none →
      sassafras_verify env h = .error (.HeaderUnsealed (env.hashFn h.logs))) ∧
    (∀ item, h.logs.getLast? = some item →
      ((sassafras_verify env h = .error .InvalidSeal ↔
        as_sassafras_seal item = none ∨
        ∃ sig, as_sassafras_seal item = some sig ∧
          env.sealVerify sig (env.hashFn h.logs.dropLast) aw.1 = false) ∧
      (∀ out, sassafras_verify env h = .ok out →
        out.header = ⟨h.logs.dropLast⟩ ∧ out.post_digests = [item]))) := by
  constructor
  · intro hlast
    exact absurd (List.getLast?_eq_none_iff.mp hlast) (find_pre_digest_ok_ne_nil h pre hfp)
  · intro item hlast
    constructor
    · constructor
      · intro hEq
        cases hseal : as_sassafras_seal item with
        | none => exact Or.inl rfl
        | some sig =>
          cases hsv : env.sealVerify sig (env.hashFn h.logs.dropLast) aw.1 with
          | false => exact Or.inr ⟨sig, rfl, hsv⟩
          | true =>
            exfalso
            unfold sassafras_verify at hEq
            simp only [hpm, ok_or_some, except_bind_ok, hfp, if_neg hslot, except_pure,
              hga, hlast, hseal, hsv, Bool.not_true, Bool.false_eq_true, if_false] at hEq
            cases hgt : env.auxiliary.validating.proofs[pre.ticket_vrf_index]? with
            | none => simp [hgt, ok_or_none, except_bind_error] at hEq
            | some tp =>
            simp only [hgt, ok_or_some, except_bind_ok] at hEq
            cases htv : env.vrfVerify aw.1
                (make_ticket_transcript env.auxiliary.validating.randomness pre.slot
                  env.auxiliary.validating.epoch) pre.ticket_vrf_output tp with
            | false => simp [htv, except_throw, except_bind_error] at hEq
            | true =>
            simp only [htv, Bool.not_true, Bool.false_eq_true, if_false,
              except_pure, except_bind_ok] at hEq
            cases hpv : env.vrfVerify aw.1
                (make_post_transcript env.auxiliary.validating.randomness pre.slot
                  env.auxiliary.validating.epoch) pre.post_vrf_output pre.post_vrf_proof with
            | false => simp [hpv, except_throw, except_bind_error] at hEq
            | true =>
            simp only [hpv, Bool.not_true, Bool.false_eq_true, if_false,
              except_pure, except_bind_ok] at hEq
            cases hpd : find_post_block_descriptor ⟨h.logs.dropLast⟩ with
            | error e =>
              simp only [hpd, except_bind_error] at hEq
              have := find_post_block_descriptor_error_shape _ e hpd
              subst this
              simp at hEq
            | ok pdesc =>
            simp only [hpd, except_bind_ok] at hEq
            cases hnd : find_next_epoch_descriptor ⟨h.logs.dropLast⟩ with
            | error e =>
              simp only [hnd, except_bind_error] at hEq
              have := find_next_epoch_descriptor_error_shape _ e hnd
              subst this
              simp at hEq
            | ok ndesc =>
              simp only [hnd, except_bind_ok] at hEq
              simp at hEq
      · intro hcase
        unfold sassafras_verify
        rcases hcase with hseal | ⟨sig, hseal, hsv⟩
        · simp [hpm, ok_or_some, except_bind_ok, hfp, if_neg hslot, except_pure,
            hga, hlast, hseal, ok_or_none, except_bind_error]
        · simp [hpm, ok_or_some, except_bind_ok, hfp, if_neg hslot, except_pure,
            hga, hlast, hseal, hsv, except_throw, except_bind_error]
    · intro out hout
      unfold sassafras_verify at hout
      simp only [hpm, ok_or_some, except_bind_ok, hfp, if_neg hslot, except_pure,
        hga, hlast] at hout
      cases hseal : as_sassafras_seal item with
      | none => simp [hseal, ok_or_none, except_bind_error] at hout
      | some sig =>
      simp only [hseal, ok_or_some, except_bind_ok] at hout
      cases hsv : env.sealVerify sig (env.hashFn h.logs.dropLast) aw.1 with
      | false => simp [hsv, except_throw, except_bind_error] at hout
      | true =>
      simp only [hsv, Bool.not_true, Bool.false_eq_true, if_false,
        except_pure, except_bind_ok] at hout
      cases hgt : env.auxiliary.validating.proofs[pre.ticket_vrf_index]? with
      | none => simp [hgt, ok_or_none, except_bind_error] at hout
      | some tp =>
      simp only [hgt, ok_or_some, except_bind_ok] at hout
      cases htv : env.vrfVerify aw.1
          (make_ticket_transcript env.auxiliary.validating.randomness pre.slot
            env.auxiliary.validating.epoch) pre.ticket_vrf_output tp with
      | false => simp [htv, except_throw, except_bind_error] at hout
      | true =>
      simp only [htv, Bool.not_true, Bool.false_eq_true, if_false,
        except_pure, except_bind_ok] at hout
      cases hpv : env.vrfVerify aw.1
          (make_post_transcript env.auxiliary.validating.randomness pre.slot
            env.auxiliary.validating.epoch) pre.post_vrf_output pre.post_vrf_proof with
      | false => simp [hpv, except_throw, except_bind_error] at hout
      | true =>
      simp only [hpv, Bool.not_true, Bool.false_eq_true, if_false,
        except_pure, except_bind_ok] at hout
      cases hpd : find_post_block_descriptor ⟨h.logs.dropLast⟩ with
      | error e => simp [hpd, except_bind_error] at hout
      | ok pdesc =>
      simp only [hpd, except_bind_ok] at hout
      cases hnd : find_next_epoch_descriptor ⟨h.logs.dropLast⟩ with
      | error e => simp [hnd, except_bind_error] at hout
      | ok ndesc =>
        simp only [hnd, except_bind_ok] at hout
        cases hout
        exact ⟨rfl, rfl⟩

/-- Witness for C4 at a concrete sealed header. -/
theorem verify_seal_spec_witness :
    envW.parent_meta = some () ∧
    find_pre_digest hSealed = .ok pdW ∧
    (¬ pdW.slot > envW.slot_now) ∧
    envW.auxiliary.validating.authorities[pdW.authority_index]? = some ([1], 1) ∧
    hSealed.logs.getLast? = some (.seal SASSAFRAS_ENGINE_ID 99) ∧
    ((sassafras_verify envW hSealed = .error .InvalidSeal ↔
        as_sassafras_seal (.seal SASSAFRAS_ENGINE_ID 99) = none ∨
        ∃ sig, as_sassafras_seal (.seal SASSAFRAS_ENGINE_ID 99) = some sig ∧
          envW.sealVerify sig (envW.hashFn hSealed.logs.dropLast) (([1], 1) :
            AuthorityId × SassafrasAuthorityWeight).1 = false) ∧
      (∀ out, sassafras_verify envW hSealed = .ok out →
        out.header = ⟨hSealed.logs.dropLast⟩ ∧
        out.post_digests = [.seal SASSAFRAS_ENGINE_ID 99])) :=
  ⟨rfl, rfl, by decide, rfl, rfl,
    (verify_seal_spec envW hSealed pdW ([1], 1) rfl rfl (by decide) rfl).2
      (.seal SASSAFRAS_ENGINE_ID 99) rfl⟩

/-- C1 counterexample: at this concrete input the verifier consumes a
`NextEpochDescriptor` and succeeds, and the post-block state indeed has
`validating = old publishing` and a fresh `publishing` from the
descriptor — but the current epoch index (the `validating.epoch` the code
feeds to the VRF transcripts) becomes 9, not the old 5 incremented by
one, and the verifier's state carries no `start_slot` to advance: the
claimed `start_slot + duration` / `epoch_index + 1` updates (performed
only by the uncalled `Epoch.increment`) do not happen here. -/
theorem verify_rotation_counterexample :
    sassafras_verify envW hRot = .ok
      ⟨⟨[.pre pdW, .nextDesc ⟨[([6], 1)], [5]⟩]⟩, [.seal SASSAFRAS_ENGINE_ID 99], false,
       [(AUXILIARY_KEY, some ⟨pubW, ⟨[], [([6], 1)], [5], 10⟩, 0⟩)], false, false⟩ ∧
    (⟨pubW, ⟨[], [([6], 1)], [5], 10⟩, 0⟩ : Auxiliary).validating.epoch ≠
      envW.auxiliary.validating.epoch + 1 :=
  ⟨rfl, by decide⟩

/-- C1 (amended): when the verifier consumes a `NextEpochDescriptor`,
the post-block record written under `AUXILIARY_KEY` has `validating`
equal to the old `publishing` set in full (authorities, randomness, and
its proofs extended by any post-block commitments of this block), and
`publishing` the fresh set with empty proofs, the descriptor's
authorities and randomness, and a per-set epoch one past the swapped-in
set's; the record's slot is unchanged and no start-slot advancement or
current-epoch-index increment takes place. -/
theorem verify_rotation_amended (env : VerifyEnv) (h : SassHeader) (pre : PreDigest)
    (aw : AuthorityId × SassafrasAuthorityWeight) (item : DigestItem) (sig : Signature)
    (tp : VRFProof) (pd : Option PostBlockDescriptor) (d : NextEpochDescriptor)
    (pubAfter : PoolAuxiliary)
    (hpm : env.parent_meta = some ()) (hfp : find_pre_digest h = .ok pre)
    (hslot : ¬ pre.slot > env.slot_now)
    (hga : env.auxiliary.validating.authorities[pre.authority_index]? = some aw)
    (hlast : h.logs.getLast? = some item)
    (hseal : as_sassafras_seal item = some sig)
    (hsv : env.sealVerify sig (env.hashFn h.logs.dropLast) aw.1 = true)
    (hgt : env.auxiliary.validating.proofs[pre.ticket_vrf_index]? = some tp)
    (htv : env.vrfVerify aw.1 (make_ticket_transcript env.auxiliary.validating.randomness
      pre.slot env.auxiliary.validating.epoch) pre.ticket_vrf_output tp = true)
    (hpv : env.vrfVerify aw.1 (make_post_transcript env.auxiliary.validating.randomness
      pre.slot env.auxiliary.validating.epoch) pre.post_vrf_output pre.post_vrf_proof = true)
    (hpd : find_post_block_descriptor ⟨h.logs.dropLast⟩ = .ok pd)
    (hnd : find_next_epoch_descriptor ⟨h.logs.dropLast⟩ = .ok (some d))
    (hpub : pubAfter = (match pd with
      | none => env.auxiliary.publishing
      | some dd => { env.auxiliary.publishing with
          proofs := env.auxiliary.publishing.proofs ++ dd.commitments })) :
    sassafras_verify env h = .ok
      { header := ⟨h.logs.dropLast⟩
        post_digests := [item]
        finalized := false
        auxiliary := [(AUXILIARY_KEY, some
          { validating := pubAfter
            publishing :=
              { proofs := []
                authorities := d.authorities
                randomness := d.randomness
                epoch := wadd pubAfter.epoch 1 }
            slot := env.auxiliary.slot })]
        allow_missing_state := false
        import_existing := false } := by
  subst hpub
  unfold sassafras_verify
  simp only [hpm, ok_or_some, except_bind_ok, hfp, if_neg hslot, except_pure,
    hga, hlast, hseal, hsv, hgt, htv, hpv, hpd, hnd, Bool.not_true, Bool.false_eq_true,
    if_false, except_bind_ok]
  cases pd <;> rfl

/-- Witness for the amended C1 at the concrete rotation input. -/
theorem verify_rotation_amended_witness :
    envW.parent_meta = some () ∧
    find_pre_digest hRot = .ok pdW ∧
    (¬ pdW.slot > envW.slot_now) ∧
    find_next_epoch_descriptor ⟨hRot.logs.dropLast⟩ = .ok (some ⟨[([6], 1)], [5]⟩) ∧
    sassafras_verify envW hRot = .ok
      { header := ⟨hRot.logs.dropLast⟩
        post_digests := [.seal SASSAFRAS_ENGINE_ID 99]
        finalized := false
        auxiliary := [(AUXILIARY_KEY, some
          { validating := pubW
            publishing :=
              { proofs := []
                authorities := [([6], 1)]
                randomness := [5]
                epoch := wadd pubW.epoch 1 }
            slot := envW.auxiliary.slot })]
        allow_missing_state := false
        import_existing := false } :=
  ⟨rfl, rfl, by decide, rfl,
    verify_rotation_amended envW hRot pdW ([1], 1) (.seal SASSAFRAS_ENGINE_ID 99) 99 10
      none ⟨[([6], 1)], [5]⟩ pubW rfl rfl (by decide) rfl rfl rfl rfl rfl rfl rfl rfl rfl rfl⟩

/-- C7 evaluation at the failing input: after the rotation the new
`validating.proofs` keep the old publishing order `[10, 20, 30]` (the
outside-in sort is a `TODO` in the source and is not performed), whereas
the outside-in order of that sequence is `[10, 30, 20]`. -/
theorem verify_rotation_proofs_not_sorted :
    sassafras_verify envW hRot = .ok
      ⟨⟨[.pre pdW, .nextDesc ⟨[([6], 1)], [5]⟩]⟩, [.seal SASSAFRAS_ENGINE_ID 99], false,
       [(AUXILIARY_KEY, some ⟨pubW, ⟨[], [([6], 1)], [5], 10⟩, 0⟩)], false, false⟩ ∧
    (⟨pubW, ⟨[], [([6], 1)], [5], 10⟩, 0⟩ : Auxiliary).validating.proofs = [10, 20, 30] ∧
    outsideIn [10, 20, 30] = [10, 30, 20] ∧
    (⟨pubW, ⟨[], [([6], 1)], [5], 10⟩, 0⟩ : Auxiliary).validating.proofs ≠
      outsideIn (⟨pubW, ⟨[], [([6], 1)], [5], 10⟩, 0⟩ : Auxiliary).validating.proofs :=
  ⟨rfl, rfl, rfl, by decide⟩

/-- C3 evaluation at the failing input: with the parent record at
`last_slot = 5`, a block at slot 6 with no auxiliary writes is accepted
and delegated to the inner importer bit-for-bit unchanged — the record
updated to `last_slot = 6` exists only as a dropped local and is never
written with the import; the strict check itself is implemented, as the
second conjunct shows for an equal slot. -/
theorem import_block_drops_slot_update :
    sassafras_import_block (some ⟨valW, pubW, 5⟩)
        ⟨⟨[.pre ⟨0, 6, 0, 11, 12, 13⟩]⟩, []⟩ =
      .ok ⟨⟨[.pre ⟨0, 6, 0, 11, 12, 13⟩]⟩, []⟩ ∧
    sassafras_import_block (some ⟨valW, pubW, 5⟩)
        ⟨⟨[.pre ⟨0, 5, 0, 11, 12, 13⟩]⟩, []⟩ = .error .SlotInPast :=
  ⟨rfl, rfl⟩

end Sassafras
